import Mathlib

/-!
Shallow embedding of the authentication core of FromSoftModManager
(src/app/services/nexus_oauth.py and src/app/services/nexus_sso.py),
with theorems settling the specification claims about it.

Python `None`-or-string values are modelled as `Option String`; Python's
truthiness test on such a value (`if error:`) is `truthy` below.  Query
parameters are modelled at the output level of `urllib.parse.parse_qs`
followed by `[0]` indexing: each parameter is `none` (absent) or
`some v` with `v ≠ ""` (parse_qs drops blank values by default, so a
first value is never the empty string).
-/

namespace FSMM

/-- Truthiness of a Python optional string: `None` and `""` are falsy. -/
def truthy : Option String → Bool
  | none => false
  | some s => !s.isEmpty

/-- State held by `_OAuthHTTPServer` (src/app/services/nexus_oauth.py,
`_OAuthHTTPServer.__init__`): the expected CSRF state fixed at
construction and the mutually written `oauth_code` / `oauth_error` cells,
both initially `None`. -/
structure OAuthServerState where
  expected_state : String
  oauth_code : Option String
  oauth_error : Option String
  deriving Repr, DecidableEq

/-- Fresh server state, as built by `_OAuthHTTPServer.__init__`. -/
def freshServer (state : String) : OAuthServerState :=
  { expected_state := state, oauth_code := none, oauth_error := none }

/-- One GET request as seen by `_CallbackHandler.do_GET` after URL parsing:
the path and the first values of the `code`, `state` and `error` query
parameters. -/
structure GetRequest where
  path : String
  code : Option String
  state : Option String
  error : Option String
  deriving Repr, DecidableEq

/-- Request on the callback route with the given parsed parameters. -/
def mkReq (code state error : Option String) : GetRequest :=
  { path := "/callback", code := code, state := state, error := error }

/-- Embedding of `_CallbackHandler.do_GET` (src/app/services/nexus_oauth.py
lines 166-185): a non-callback path changes nothing (404), otherwise the
error / missing-code / state-mismatch / success chain runs in order.
In Python `state != self.server.expected_state` compares an optional
string with a string, so an absent state never equals the expected one;
this is `req.state ≠ some sv.expected_state` here. -/
def do_GET (req : GetRequest) (sv : OAuthServerState) : OAuthServerState :=
  if req.path ≠ "/callback" then sv
  else if truthy req.error then { sv with oauth_error := req.error }
  else if ¬ truthy req.code then
    { sv with oauth_error := some "No authorization code received" }
  else if req.state ≠ some sv.expected_state then
    { sv with oauth_error := some "State mismatch — possible CSRF attack" }
  else { sv with oauth_code := req.code }

/-- Embedding of the worker loop `NexusOAuthClient._serve`
(src/app/services/nexus_oauth.py lines 303-331) over a finite trace of
incoming requests.  Each iteration handles one request, then checks
`oauth_error` (break, no exchange) and `oauth_code` (one exchange, break)
exactly as the Python loop does.  The returned number counts calls to
`exchange_code_for_tokens`. -/
def serveLoop (reqs : List GetRequest) (sv : OAuthServerState)
    (exchanges : Nat) : OAuthServerState × Nat :=
  match reqs with
  | [] => (sv, exchanges)
  | r :: rest =>
    let sv2 := do_GET r sv
    if truthy sv2.oauth_error then (sv2, exchanges)
    else if truthy sv2.oauth_code then (sv2, exchanges + 1)
    else serveLoop rest sv2 exchanges

/-- Listwise prefix test, auxiliary to the substring test. -/
def listPrefix : List Char → List Char → Bool
  | [], _ => true
  | _ :: _, [] => false
  | a :: as, b :: bs => a == b && listPrefix as bs

/-- Listwise substring test, auxiliary to `strContains`. -/
def listSub (needle : List Char) : List Char → Bool
  | [] => needle.isEmpty
  | c :: t => listPrefix needle (c :: t) || listSub needle t

/-- Substring test on strings (used to state that error messages carry a
status code or a response body). -/
def strContains (s sub : String) : Bool :=
  listSub sub.data s.data

/-- Outcome of one HTTPS POST to the token endpoint, as the Python code
observes it: a 2xx JSON body (its numeric fields parsed, which is all the
claims concern), an `urllib.error.HTTPError` with status and body, or any
other exception (timeout, connection error) with its text. -/
inductive HttpResponse where
  | ok (data : List (String × Int))
  | httpError (code : Nat) (body : String)
  | transportFailure (msg : String)
  deriving Repr, DecidableEq

/-- Result of `exchange_code_for_tokens` / `refresh_access_token`: Python
returns either the token dict or `{"error": msg}`. -/
inductive TokenResult where
  | tokens (data : List (String × Int))
  | errorResult (msg : String)
  deriving Repr, DecidableEq

/-- First-match lookup in a Python-dict model (`data.get(k)`). -/
def dictGet (d : List (String × Int)) (k : String) : Option Int :=
  match d with
  | [] => none
  | (k2, v) :: rest => if k2 = k then some v else dictGet rest k

/-- Assignment `data[k] = v` in a Python-dict model: replace in place if
the key exists, append otherwise. -/
def dictSet (d : List (String × Int)) (k : String) (v : Int) :
    List (String × Int) :=
  match d with
  | [] => [(k, v)]
  | (k2, v2) :: rest =>
    if k2 = k then (k2, v) :: rest else (k2, v2) :: dictSet rest k v

/-- Embedding of `exchange_code_for_tokens` (src/app/services/nexus_oauth.py
lines 91-125) as a function of the observed HTTP outcome and the receipt
time `now` (Python `int(time.time())`).  On success it stamps
`expires_at = now + data.get("expires_in", 3600)`; on an HTTPError it
returns the error dict whose message carries the status and the body. -/
def exchange_code_for_tokens (resp : HttpResponse) (now : Int) : TokenResult :=
  match resp with
  | .ok data =>
    .tokens (dictSet data "expires_at" (now + (dictGet data "expires_in").getD 3600))
  | .httpError code body =>
    .errorResult ("Token exchange failed (HTTP " ++ toString code ++ "): " ++ body)
  | .transportFailure msg =>
    .errorResult ("Token exchange failed: " ++ msg)

/-- Embedding of `refresh_access_token` (src/app/services/nexus_oauth.py
lines 128-158).  The success branch stamps `expires_at` exactly as the
exchange does; an HTTPError with 400 ≤ code < 500 yields the fixed
revoked-token message, any other HTTPError yields a generic message that
carries the status only (the Python code does not read the body here). -/
def refresh_access_token (resp : HttpResponse) (now : Int) : TokenResult :=
  match resp with
  | .ok data =>
    .tokens (dictSet data "expires_at" (now + (dictGet data "expires_in").getD 3600))
  | .httpError code _body =>
    if 400 ≤ code ∧ code < 500 then
      .errorResult "Token revoked or expired. Please re-authorize."
    else
      .errorResult ("Token refresh failed (HTTP " ++ toString code ++ ")")
  | .transportFailure msg =>
    .errorResult ("Token refresh failed: " ++ msg)

/-- URL-safe base64 alphabet in index order, as used by Python's
`base64.urlsafe_b64encode`. -/
def B64URL_ALPHABET : String :=
  "ABCDEFGHIJKLMNOPQRSTUVWXYZabcdefghijklmnopqrstuvwxyz0123456789-_"

/-- Character for one sextet value (0-63). -/
def sextetChar (n : Nat) : Char :=
  B64URL_ALPHABET.data.getD n 'A'

/-- URL-safe base64 encoding of a byte list with the `=` padding already
stripped, i.e. `base64.urlsafe_b64encode(bs).rstrip(b"=")`. -/
def b64urlEncodeNoPad : List Nat → List Char
  | [] => []
  | [a] => [sextetChar (a / 4), sextetChar (a % 4 * 16)]
  | [a, b] =>
    [sextetChar (a / 4), sextetChar (a % 4 * 16 + b / 16), sextetChar (b % 16 * 4)]
  | a :: b :: c :: rest =>
    sextetChar (a / 4) :: sextetChar (a % 4 * 16 + b / 16) ::
      sextetChar (b % 16 * 4 + c / 64) :: sextetChar (c % 64) ::
      b64urlEncodeNoPad rest

/-- Embedding of `_generate_code_verifier` (src/app/services/nexus_oauth.py
lines 41-43) as a function of the 43 random bytes drawn by
`os.urandom(43)`. -/
def _generate_code_verifier (randomBytes : List Nat) : String :=
  ⟨b64urlEncodeNoPad randomBytes⟩

/-- Reduction modulo 2^32, the word size of SHA-256 arithmetic. -/
def w32 (n : Nat) : Nat := n % 4294967296

/-- Right rotation of a 32-bit word. -/
def rotr (x n : Nat) : Nat := w32 (x / 2 ^ n + x % 2 ^ n * 2 ^ (32 - n))

/-- SHA-256 σ0. -/
def ssig0 (x : Nat) : Nat := rotr x 7 ^^^ rotr x 18 ^^^ x / 2 ^ 3

/-- SHA-256 σ1. -/
def ssig1 (x : Nat) : Nat := rotr x 17 ^^^ rotr x 19 ^^^ x / 2 ^ 10

/-- SHA-256 Σ0. -/
def bsig0 (x : Nat) : Nat := rotr x 2 ^^^ rotr x 13 ^^^ rotr x 22

/-- SHA-256 Σ1. -/
def bsig1 (x : Nat) : Nat := rotr x 6 ^^^ rotr x 11 ^^^ rotr x 25

/-- SHA-256 round constants (FIPS 180-4, written in decimal). -/
def K256 : List Nat :=
  [1116352408, 1899447441, 3049323471, 3921009573, 961987163,
   1508970993, 2453635748, 2870763221, 3624381080, 310598401,
   607225278, 1426881987, 1925078388, 2162078206, 2614888103,
   3248222580, 3835390401, 4022224774, 264347078, 604807628,
   770255983, 1249150122, 1555081692, 1996064986, 2554220882,
   2821834349, 2952996808, 3210313671, 3336571891, 3584528711,
   113926993, 338241895, 666307205, 773529912, 1294757372,
   1396182291, 1695183700, 1986661051, 2177026350, 2456956037,
   2730485921, 2820302411, 3259730800, 3345764771, 3516065817,
   3600352804, 4094571909, 275423344, 430227734, 506948616,
   659060556, 883997877, 958139571, 1322822218, 1537002063,
   1747873779, 1955562222, 2024104815, 2227730452, 2361852424,
   2428436474, 2756734187, 3204031479, 3329325298]

/-- SHA-256 initial hash value (FIPS 180-4, written in decimal). -/
def H256init : List Nat :=
  [1779033703, 3144134277, 1013904242, 2773480762, 1359893119,
   2600822924, 528734635, 1541459225]

/-- Big-endian 8-byte encoding of a natural number (message bit length). -/
def bigEndian8 (n : Nat) : List Nat :=
  [n / 2 ^ 56 % 256, n / 2 ^ 48 % 256, n / 2 ^ 40 % 256, n / 2 ^ 32 % 256,
   n / 2 ^ 24 % 256, n / 2 ^ 16 % 256, n / 2 ^ 8 % 256, n % 256]

/-- SHA-256 message padding: append `0x80`, zero bytes to reach 56 mod 64,
then the bit length as 8 big-endian bytes. -/
def sha256pad (msg : List Nat) : List Nat :=
  msg ++ [128] ++ List.replicate ((119 - msg.length % 64) % 64) 0 ++
    bigEndian8 (8 * msg.length)

/-- Pack bytes into big-endian 32-bit words. -/
def bytesToWords : List Nat → List Nat
  | a :: b :: c :: d :: rest => (((a * 256 + b) * 256 + c) * 256 + d) :: bytesToWords rest
  | _ => []

/-- Split a word list into 16-word blocks (fuel-based so it reduces in the
kernel). -/
def chunks16Aux : Nat → List Nat → List (List Nat)
  | _, [] => []
  | 0, l => [l]
  | fuel + 1, l => l.take 16 :: chunks16Aux fuel (l.drop 16)

/-- Split a word list into 16-word blocks. -/
def chunks16 (l : List Nat) : List (List Nat) := chunks16Aux l.length l

/-- Extend a 16-word block to the 64-word message schedule. -/
def extendW : Nat → List Nat → List Nat
  | 0, w => w
  | n + 1, w =>
    let t := w.length
    extendW n (w ++ [w32 (ssig1 (w.getD (t - 2) 0) + w.getD (t - 7) 0 +
      ssig0 (w.getD (t - 15) 0) + w.getD (t - 16) 0)])

/-- One SHA-256 compression round on the 8-register state. -/
def compressRound (st : List Nat) (kw : Nat × Nat) : List Nat :=
  match st with
  | [a, b, c, d, e, f, g, h] =>
    let ch := (e &&& f) ^^^ ((4294967295 - e) &&& g)
    let maj := (a &&& b) ^^^ (a &&& c) ^^^ (b &&& c)
    let t1 := w32 (h + bsig1 e + ch + kw.1 + kw.2)
    let t2 := w32 (bsig0 a + maj)
    [w32 (t1 + t2), a, b, c, w32 (d + t1), e, f, g]
  | other => other

/-- SHA-256 compression of one 16-word block into the running hash. -/
def compressBlock (h : List Nat) (block : List Nat) : List Nat :=
  let w := extendW 48 block
  let st := (K256.zip w).foldl compressRound h
  (h.zip st).map (fun p => w32 (p.1 + p.2))

/-- SHA-256 of a byte list, returning the 32 digest bytes. -/
def sha256 (msg : List Nat) : List Nat :=
  ((chunks16 (bytesToWords (sha256pad msg))).foldl compressBlock H256init).foldr
    (fun wrd acc =>
      wrd / 2 ^ 24 % 256 :: wrd / 2 ^ 16 % 256 :: wrd / 2 ^ 8 % 256 :: wrd % 256 :: acc) []

/-- ASCII bytes of a string (`verifier.encode("ascii")`); exact for the
ASCII strings this code produces and consumes. -/
def asciiBytes (s : String) : List Nat := s.data.map Char.toNat

/-- Embedding of `_generate_code_challenge` (src/app/services/nexus_oauth.py
lines 46-49): SHA-256 of the verifier, base64url-encoded, padding
stripped. -/
def _generate_code_challenge (verifier : String) : String :=
  ⟨b64urlEncodeNoPad (sha256 (asciiBytes verifier))⟩

/-- Sextet value of one character under Python's `urlsafe_b64decode`:
`-` and `_` are translated to `+` and `/` first, so both alphabets
decode; everything else (padding included) is not a data character. -/
def b64Value (c : Char) : Option Nat :=
  if 65 ≤ c.toNat ∧ c.toNat ≤ 90 then some (c.toNat - 65)
  else if 97 ≤ c.toNat ∧ c.toNat ≤ 122 then some (c.toNat - 97 + 26)
  else if 48 ≤ c.toNat ∧ c.toNat ≤ 57 then some (c.toNat - 48 + 52)
  else if c = '+' ∨ c = '-' then some 62
  else if c = '/' ∨ c = '_' then some 63
  else none

/-- CPython's lenient `binascii.a2b_base64` (the 3.11 C implementation,
`strict_mode=False`) as a state machine over the input characters:
`quad_pos` is the position in the current 4-character group, `left` the
pending bits of the last data character, `pads` the pad count since the
last data character, `acc` the bytes emitted so far (reversed).
Characters outside the alphabet are skipped; a pad at `quad_pos ≥ 2`
that completes a group (second pad at position 2, first at position 3)
ends decoding and the remaining input is ignored; pads before position 2
are ignored.  At end of input, a non-zero `quad_pos` raises — position 1
is the "1 more than a multiple of 4" error, positions 2 and 3 are
"Incorrect padding" — modelled as `none`. -/
def a2b_base64_lenient : List Char → Nat → Nat → Nat → List Nat → Option (List Nat)
  | [], quad_pos, _left, _pads, acc =>
    if quad_pos = 0 then some acc.reverse else none
  | c :: rest, quad_pos, left, pads, acc =>
    if c = '=' then
      if 2 ≤ quad_pos then
        if 4 ≤ quad_pos + (pads + 1) then some acc.reverse
        else a2b_base64_lenient rest quad_pos left (pads + 1) acc
      else a2b_base64_lenient rest quad_pos left pads acc
    else
      match b64Value c with
      | none => a2b_base64_lenient rest quad_pos left pads acc
      | some v =>
        match quad_pos with
        | 0 => a2b_base64_lenient rest 1 v 0 acc
        | 1 => a2b_base64_lenient rest 2 (v % 16) 0 ((left * 4 + v / 16) :: acc)
        | 2 => a2b_base64_lenient rest 3 (v % 4) 0 ((left * 16 + v / 4) :: acc)
        | _ => a2b_base64_lenient rest 0 0 0 ((left * 64 + v) :: acc)

/-- Embedding of `_b64url_decode` (src/app/services/nexus_oauth.py lines
54-57): the Python code appends `"=" * (4 - len(s) % 4)` and calls
`base64.urlsafe_b64decode`, which raises on non-ASCII input
(`str.encode("ascii")`) and otherwise runs the lenient
`binascii.a2b_base64` above; `none` models a raised exception (caught by
the caller). -/
def _b64url_decode (s : String) : Option (List Nat) :=
  if s.data.any (fun c => 128 ≤ c.toNat) then none
  else a2b_base64_lenient (s.data ++ List.replicate (4 - s.length % 4) '=') 0 0 0 []

/-- JSON values as `json.loads` produces them.  A number is kept as its
source literal (`jnum "1.5"`, `jnum "NaN"`): no claim inspects a numeric
value, only whether parsing succeeds, and a number never equals a string
under Python `==`, which is all `extract_user_info` compares. -/
inductive JV where
  | jnull
  | jbool (b : Bool)
  | jnum (lit : String)
  | jstr (s : String)
  | jarr (elems : List JV)
  | jobj (fields : List (String × JV))
  deriving Repr

/-- JSON insignificant whitespace. -/
def skipWs (cs : List Char) : List Char :=
  cs.dropWhile (fun c => c == ' ' || c == '\n' || c == '\t' || c == '\r')

/-- Left and right curly brace characters. -/
def lbrace : Char := Char.ofNat 123

/-- Right curly brace character. -/
def rbrace : Char := Char.ofNat 125

/-- Hexadecimal digit value. -/
def hexVal (c : Char) : Option Nat :=
  if 48 ≤ c.toNat ∧ c.toNat ≤ 57 then some (c.toNat - 48)
  else if 97 ≤ c.toNat ∧ c.toNat ≤ 102 then some (c.toNat - 97 + 10)
  else if 65 ≤ c.toNat ∧ c.toNat ≤ 70 then some (c.toNat - 65 + 10)
  else none

/-- Body of a JSON string after the opening quote, accumulating decoded
characters; returns the string and the input remaining after the closing
quote.  As `json.loads` does in its default strict mode, raw control
characters (codes 0-31) are rejected, `\uXXXX` surrogate pairs are
combined into one code point, and unknown escapes fail.  A lone
surrogate escape is legal for Python (whose strings may hold lone
surrogates) but has no Lean `Char`; it becomes U+FFFD here — parse
success still agrees with `json.loads` in every case. -/
def jsonStringBody : Nat → List Char → List Char → Option (String × List Char)
  | 0, _, _ => none
  | _ + 1, [], _ => none
  | fuel + 1, c :: rest, acc =>
    if c == '\"' then some (⟨acc.reverse⟩, rest)
    else if c == '\\' then
      match rest with
      | [] => none
      | e :: rest2 =>
        if e == 'n' then jsonStringBody fuel rest2 ('\n' :: acc)
        else if e == 't' then jsonStringBody fuel rest2 ('\t' :: acc)
        else if e == 'r' then jsonStringBody fuel rest2 ('\r' :: acc)
        else if e == 'b' then jsonStringBody fuel rest2 (Char.ofNat 8 :: acc)
        else if e == 'f' then jsonStringBody fuel rest2 (Char.ofNat 12 :: acc)
        else if e == '\"' || e == '\\' || e == '/' then
          jsonStringBody fuel rest2 (e :: acc)
        else if e == 'u' then
          match rest2 with
          | h1 :: h2 :: h3 :: h4 :: rest3 =>
            match hexVal h1, hexVal h2, hexVal h3, hexVal h4 with
            | some v1, some v2, some v3, some v4 =>
              let n := ((v1 * 16 + v2) * 16 + v3) * 16 + v4
              if 55296 ≤ n ∧ n ≤ 56319 then
                match rest3 with
                | '\\' :: 'u' :: g1 :: g2 :: g3 :: g4 :: rest4 =>
                  match hexVal g1, hexVal g2, hexVal g3, hexVal g4 with
                  | some w1, some w2, some w3, some w4 =>
                    let m := ((w1 * 16 + w2) * 16 + w3) * 16 + w4
                    if 56320 ≤ m ∧ m ≤ 57343 then
                      jsonStringBody fuel rest4
                        (Char.ofNat (65536 + (n - 55296) * 1024 + (m - 56320)) :: acc)
                    else jsonStringBody fuel rest3 (Char.ofNat 65533 :: acc)
                  | _, _, _, _ => jsonStringBody fuel rest3 (Char.ofNat 65533 :: acc)
                | _ => jsonStringBody fuel rest3 (Char.ofNat 65533 :: acc)
              else if 56320 ≤ n ∧ n ≤ 57343 then
                jsonStringBody fuel rest3 (Char.ofNat 65533 :: acc)
              else jsonStringBody fuel rest3 (Char.ofNat n :: acc)
            | _, _, _, _ => none
          | _ => none
        else none
    else if c.toNat < 32 then none
    else jsonStringBody fuel rest (c :: acc)

/-- Longest digit prefix and the rest. -/
def takeDigits (cs : List Char) : List Char × List Char :=
  (cs.takeWhile Char.isDigit, cs.dropWhile Char.isDigit)

/-- Optional JSON fraction part `.digits`; `([], cs)` when absent, `none`
when a dot is not followed by a digit. -/
def jsonFracPart : List Char → Option (List Char × List Char)
  | '.' :: t =>
    let p := takeDigits t
    if p.1.isEmpty then none else some ('.' :: p.1, p.2)
  | t => some ([], t)

/-- Optional JSON exponent part `[eE][+-]?digits`; `([], cs)` when absent,
`none` when the digits are missing. -/
def jsonExpPart : List Char → Option (List Char × List Char)
  | c :: t =>
    if c == 'e' || c == 'E' then
      match t with
      | s :: t2 =>
        if s == '+' || s == '-' then
          let p := takeDigits t2
          if p.1.isEmpty then none else some (c :: s :: p.1, p.2)
        else
          let p := takeDigits t
          if p.1.isEmpty then none else some (c :: p.1, p.2)
      | [] => none
    else some ([], c :: t)
  | [] => some ([], [])

/-- JSON number token per the regular expression of Python's json scanner,
`(-?(0|[1-9]digits))(.digits)?([eE][+-]?digits)?` — leading zeros are
rejected; returns the literal and the rest.  (Where the Python regex
matches a shorter prefix, this returns `none`; the leftover character is
never a legal continuation, so acceptance agrees everywhere.) -/
def jsonNumberToken (cs : List Char) : Option (List Char × List Char) :=
  let sp : List Char × List Char :=
    match cs with
    | '-' :: t => (['-'], t)
    | t => ([], t)
  match sp.2 with
  | [] => none
  | d :: t =>
    if ¬ d.isDigit then none
    else
      let ip : List Char × List Char :=
        if d == '0' then ([d], t) else (d :: (takeDigits t).1, (takeDigits t).2)
      match jsonFracPart ip.2 with
      | none => none
      | some (f, t2) =>
        match jsonExpPart t2 with
        | none => none
        | some (e, t3) => some (sp.1 ++ ip.1 ++ f ++ e, t3)

/-- Recursive-descent JSON value reader with explicit fuel (structural, so
it reduces in the kernel).  Objects and arrays are read one member at a
time; the continuation after a comma is read by re-entering on a
reconstructed smaller input, guarded so that trailing commas fail as
they do in `json.loads`.  The constants `NaN`, `Infinity` and
`-Infinity`, accepted by Python's json by default, are read as number
literals.  (Python's recursion limit on absurdly nested documents is not
modelled.) -/
def jsonValue : Nat → List Char → Option (JV × List Char)
  | 0, _ => none
  | fuel + 1, input =>
    match skipWs input with
    | [] => none
    | c :: rest =>
      if c == lbrace then
        match skipWs rest with
        | [] => none
        | c2 :: rest2 =>
          if c2 == rbrace then some (.jobj [], rest2)
          else if c2 == '\"' then
            match jsonStringBody (rest2.length + 1) rest2 [] with
            | none => none
            | some (key, rest3) =>
              match skipWs rest3 with
              | ':' :: rest4 =>
                match jsonValue fuel rest4 with
                | none => none
                | some (v, rest5) =>
                  match skipWs rest5 with
                  | [] => none
                  | c6 :: rest6 =>
                    if c6 == rbrace then some (.jobj [(key, v)], rest6)
                    else if c6 == ',' then
                      match skipWs rest6 with
                      | '\"' :: _ =>
                        match jsonValue fuel (lbrace :: rest6) with
                        | some (.jobj fields, rest7) =>
                          some (.jobj ((key, v) :: fields), rest7)
                        | _ => none
                      | _ => none
                    else none
              | _ => none
          else none
      else if c == '[' then
        match skipWs rest with
        | ']' :: rest2 => some (.jarr [], rest2)
        | rest2 =>
          match jsonValue fuel rest2 with
          | none => none
          | some (v, rest3) =>
            match skipWs rest3 with
            | ']' :: rest4 => some (.jarr [v], rest4)
            | ',' :: rest4 =>
              match skipWs rest4 with
              | ']' :: _ => none
              | _ =>
                match jsonValue fuel ('[' :: rest4) with
                | some (.jarr elems, rest5) => some (.jarr (v :: elems), rest5)
                | _ => none
            | _ => none
      else if c == '\"' then
        (jsonStringBody (rest.length + 1) rest []).map fun p => (.jstr p.1, p.2)
      else if c == 't' then
        match rest with
        | 'r' :: 'u' :: 'e' :: r => some (.jbool true, r)
        | _ => none
      else if c == 'f' then
        match rest with
        | 'a' :: 'l' :: 's' :: 'e' :: r => some (.jbool false, r)
        | _ => none
      else if c == 'n' then
        match rest with
        | 'u' :: 'l' :: 'l' :: r => some (.jnull, r)
        | _ => none
      else if c == 'N' then
        match rest with
        | 'a' :: 'N' :: r => some (.jnum "NaN", r)
        | _ => none
      else if c == 'I' then
        match rest with
        | 'n' :: 'f' :: 'i' :: 'n' :: 'i' :: 't' :: 'y' :: r =>
          some (.jnum "Infinity", r)
        | _ => none
      else if c == '-' then
        match rest with
        | 'I' :: 'n' :: 'f' :: 'i' :: 'n' :: 'i' :: 't' :: 'y' :: r =>
          some (.jnum "-Infinity", r)
        | _ =>
          match jsonNumberToken (c :: rest) with
          | some (lit, r) => some (.jnum (⟨lit⟩ : String), r)
          | none => none
      else if c.isDigit then
        match jsonNumberToken (c :: rest) with
        | some (lit, r) => some (.jnum (⟨lit⟩ : String), r)
        | none => none
      else none

/-- Continuation-byte test for UTF-8. -/
def isUtf8Cont (b : Nat) : Bool := decide (128 ≤ b ∧ b ≤ 191)

/-- Strict UTF-8 decoding (fuel-based so it reduces in the kernel):
rejects truncated sequences, stray continuation bytes, overlong forms
and surrogate code points, exactly as CPython's strict utf-8 codec. -/
def utf8DecodeAux : Nat → List Nat → Option (List Char)
  | _, [] => some []
  | 0, _ => none
  | fuel + 1, b :: rest =>
    if b < 128 then (utf8DecodeAux fuel rest).map (fun cs => Char.ofNat b :: cs)
    else if 194 ≤ b ∧ b ≤ 223 then
      match rest with
      | c1 :: rest2 =>
        if isUtf8Cont c1 then
          (utf8DecodeAux fuel rest2).map
            (fun cs => Char.ofNat ((b - 192) * 64 + (c1 - 128)) :: cs)
        else none
      | [] => none
    else if 224 ≤ b ∧ b ≤ 239 then
      match rest with
      | c1 :: c2 :: rest2 =>
        if (if b = 224 then 160 else 128) ≤ c1 ∧
            c1 ≤ (if b = 237 then 159 else 191) ∧ isUtf8Cont c2 then
          (utf8DecodeAux fuel rest2).map
            (fun cs => Char.ofNat ((b - 224) * 4096 + (c1 - 128) * 64 + (c2 - 128)) :: cs)
        else none
      | _ => none
    else if 240 ≤ b ∧ b ≤ 244 then
      match rest with
      | c1 :: c2 :: c3 :: rest2 =>
        if (if b = 240 then 144 else 128) ≤ c1 ∧
            c1 ≤ (if b = 244 then 143 else 191) ∧ isUtf8Cont c2 ∧ isUtf8Cont c3 then
          (utf8DecodeAux fuel rest2).map
            (fun cs => Char.ofNat ((b - 240) * 262144 + (c1 - 128) * 4096 +
              (c2 - 128) * 64 + (c3 - 128)) :: cs)
        else none
      | _ => none
    else none

/-- Strict UTF-8 decoding of a byte list. -/
def utf8Decode (bs : List Nat) : Option (List Char) := utf8DecodeAux bs.length bs

/-- Strict UTF-16 decoding (little-endian when `le`): rejects odd lengths
and unpaired surrogates, combining surrogate pairs, as CPython's strict
utf-16 codecs do. -/
def utf16DecodeAux : Nat → Bool → List Nat → Option (List Char)
  | _, _, [] => some []
  | 0, _, _ => none
  | _ + 1, _, [_] => none
  | fuel + 1, le, b0 :: b1 :: rest =>
    let u := if le then b1 * 256 + b0 else b0 * 256 + b1
    if u < 55296 ∨ 57344 ≤ u then
      (utf16DecodeAux fuel le rest).map (fun cs => Char.ofNat u :: cs)
    else if u < 56320 then
      match rest with
      | b2 :: b3 :: rest2 =>
        let u2 := if le then b3 * 256 + b2 else b2 * 256 + b3
        if 56320 ≤ u2 ∧ u2 < 57344 then
          (utf16DecodeAux fuel le rest2).map
            (fun cs => Char.ofNat (65536 + (u - 55296) * 1024 + (u2 - 56320)) :: cs)
        else none
      | _ => none
    else none

/-- Strict UTF-16 decoding of a byte list. -/
def utf16Decode (le : Bool) (bs : List Nat) : Option (List Char) :=
  utf16DecodeAux bs.length le bs

/-- Strict UTF-32 decoding (little-endian when `le`): rejects lengths not
divisible by four, code points beyond U+10FFFF and surrogates. -/
def utf32DecodeAux : Nat → Bool → List Nat → Option (List Char)
  | _, _, [] => some []
  | 0, _, _ => none
  | fuel + 1, le, b0 :: b1 :: b2 :: b3 :: rest =>
    let u := if le then ((b3 * 256 + b2) * 256 + b1) * 256 + b0
             else ((b0 * 256 + b1) * 256 + b2) * 256 + b3
    if u < 1114112 ∧ ¬(55296 ≤ u ∧ u < 57344) then
      (utf32DecodeAux fuel le rest).map (fun cs => Char.ofNat u :: cs)
    else none
  | _ + 1, _, _ => none

/-- Strict UTF-32 decoding of a byte list. -/
def utf32Decode (le : Bool) (bs : List Nat) : Option (List Char) :=
  utf32DecodeAux bs.length le bs

/-- Embedding of `json.detect_encoding` followed by the strict decode that
`json.loads` applies to `bytes` input: UTF-32 byte-order marks are
checked before the UTF-16 ones (they share a prefix), then the UTF-8
one; without a mark, null-byte patterns in the first four (or only two)
bytes select a UTF-16/UTF-32 variant, and everything else is UTF-8.
`none` models a `UnicodeDecodeError` (caught by the caller). -/
def pyDetectDecode : List Nat → Option (List Char)
  | 0 :: 0 :: 254 :: 255 :: rest => utf32Decode false rest
  | 255 :: 254 :: 0 :: 0 :: rest => utf32Decode true rest
  | 254 :: 255 :: rest => utf16Decode false rest
  | 255 :: 254 :: rest => utf16Decode true rest
  | 239 :: 187 :: 191 :: rest => utf8Decode rest
  | bs =>
    match bs with
    | b0 :: b1 :: b2 :: b3 :: _ =>
      if b0 = 0 then
        if b1 ≠ 0 then utf16Decode false bs else utf32Decode false bs
      else if b1 = 0 then
        if b2 ≠ 0 ∨ b3 ≠ 0 then utf16Decode true bs else utf32Decode true bs
      else utf8Decode bs
    | [b0, b1] =>
      if b0 = 0 then utf16Decode false bs
      else if b1 = 0 then utf16Decode true bs
      else utf8Decode bs
    | _ => utf8Decode bs

/-- Embedding of `json.loads` on the bytes this code passes it: detect the
encoding, decode strictly, then read one JSON value followed only by
whitespace. -/
def jsonLoadsBytes (bs : List Nat) : Option JV :=
  match pyDetectDecode bs with
  | none => none
  | some cs =>
    match jsonValue (cs.length + 2) cs with
    | some (v, rest) => if (skipWs rest).isEmpty then some v else none
    | none => none

/-- Split a character list at every dot, keeping empty segments. -/
def splitDotChars : List Char → List (List Char)
  | [] => [[]]
  | c :: rest =>
    if c == '.' then [] :: splitDotChars rest
    else
      match splitDotChars rest with
      | [] => [[c]]
      | seg :: segs => (c :: seg) :: segs

/-- Embedding of Python `token.split(".")`: every dot separates, empty
segments are kept, and the empty string splits to `[""]`. -/
def pySplitDot (s : String) : List String :=
  (splitDotChars s.data).map fun l => ⟨l⟩

/-- Embedding of `decode_jwt_payload` (src/app/services/nexus_oauth.py
lines 60-73): split on `"."`; any segment count other than 3 yields the
empty dict; a base64 or JSON failure (the `except` branch) yields the
empty dict; otherwise the parsed payload. -/
def decode_jwt_payload (token : String) : JV :=
  let parts := pySplitDot token
  if parts.length ≠ 3 then .jobj []
  else
    match _b64url_decode (parts.getD 1 "") with
    | none => .jobj []
    | some bytes =>
      match jsonLoadsBytes bytes with
      | none => .jobj []
      | some v => v

/-- The slice of CPython's `socketserver.BaseServer` state that decides
whether `shutdown()` returns: the internal `__is_shut_down`
`threading.Event`, created cleared in `BaseServer.__init__` and set only
when `serve_forever` exits, and the listening socket. -/
structure HTTPServerModel where
  is_shut_down_event : Bool
  socket_open : Bool
  deriving Repr, DecidableEq

/-- Server state as `_OAuthHTTPServer.__init__` leaves it: event cleared,
socket bound.  This repository's worker loop (`_serve`) only ever calls
`handle_request()` and `server_close()`, neither of which touches the
event, so it stays cleared for the server's whole life. -/
def freshHTTPServer : HTTPServerModel :=
  { is_shut_down_event := false, socket_open := true }

/-- Fields of `NexusOAuthClient` (src/app/services/nexus_oauth.py lines
240-247) that `stop()` reads or writes. -/
structure ClientState where
  _tokens : Option (List (String × Int))
  _error : Option String
  _server : Option HTTPServerModel
  _done : Bool
  deriving Repr, DecidableEq

/-- Client as `NexusOAuthClient.__init__` builds it. -/
def initClient : ClientState :=
  { _tokens := none, _error := none, _server := none, _done := false }

/-- Client immediately after a successful `start()`: listener bound,
worker running `handle_request()` in a loop. -/
def startedClient : ClientState :=
  { _tokens := none, _error := none, _server := some freshHTTPServer, _done := false }

/-- Embedding of `NexusOAuthClient.stop` (src/app/services/nexus_oauth.py
lines 293-301).  `some c` is a call that returns with the client in state
`c`; `none` is a call that never returns.  `stop` sets `_done`, then, if
a server exists, calls `HTTPServer.shutdown()`, which waits on the
`__is_shut_down` event that only `serve_forever` ever sets — with the
event cleared that wait blocks forever (the `try/except` catches
exceptions, not blocking). -/
def stop (c : ClientState) : Option ClientState :=
  let c2 := { c with _done := true }
  match c2._server with
  | none => some c2
  | some sv =>
    if sv.is_shut_down_event then some { c2 with _server := none }
    else none

/-- World state of src/app/services/nexus_sso.py: the single class-level
attribute `_CallbackHandler.api_key` shared by every `NexusSSOAuth`
instance, and each instance's bound port (instances named by `Nat`). -/
structure SSOWorld where
  handler_api_key : Option String
  ports : Nat → Option Nat

/-- Embedding of `NexusSSOAuth.start_callback_server` (src/app/services/
nexus_sso.py lines 73-86) run on instance `i` binding `port`: it assigns
`_CallbackHandler.api_key = None` — a class-level write visible to every
instance — and records the instance's own port. -/
def sso_start_callback_server (i : Nat) (port : Nat) (w : SSOWorld) : SSOWorld :=
  { handler_api_key := none
    ports := fun j => if j = i then some port else w.ports j }

/-- Embedding of the SSO `_CallbackHandler.do_GET` (src/app/services/
nexus_sso.py lines 28-48): a truthy `api_key` query parameter is stored
in the class attribute, whichever instance's listener received it. -/
def sso_do_GET (query_api_key : Option String) (w : SSOWorld) : SSOWorld :=
  if truthy query_api_key then { w with handler_api_key := query_api_key } else w

/-- Embedding of `NexusSSOAuth.poll_for_key` (src/app/services/nexus_sso.py
lines 92-94): it returns `_CallbackHandler.api_key`, reading the class
attribute — the instance it is called on plays no role. -/
def sso_poll_for_key (_i : Nat) (w : SSOWorld) : Option String :=
  w.handler_api_key

/-! Helper lemmas. -/

/-- A list is a prefix of itself followed by anything. -/
theorem listPrefix_append : ∀ (l r : List Char), listPrefix l (l ++ r) = true
  | [], _ => rfl
  | a :: as, r => by simp [listPrefix, listPrefix_append as r]

/-- The substring test finds the needle wherever it sits. -/
theorem listSub_append : ∀ (x needle y : List Char), listSub needle (x ++ needle ++ y) = true
  | [], [], y => by cases y <;> simp [listSub, listPrefix]
  | [], c :: t, y => by
    show listSub (c :: t) (c :: (t ++ y)) = true
    simp only [listSub, Bool.or_eq_true]
    exact Or.inl (listPrefix_append (c :: t) y)
  | c :: x, needle, y => by
    show listSub needle (c :: (x ++ needle ++ y)) = true
    simp only [listSub, Bool.or_eq_true]
    exact Or.inr (listSub_append x needle y)

/-- String-level substring fact: `b` occurs inside `a ++ b ++ c`. -/
theorem strContains_append (a b c : String) : strContains (a ++ b ++ c) b = true := by
  have := listSub_append a.data b.data c.data
  simpa [strContains, String.data_append] using this

/-- Looking up the key just set. -/
theorem dictGet_dictSet_same : ∀ (d : List (String × Int)) (k : String) (v : Int),
    dictGet (dictSet d k v) k = some v
  | [], k, v => by simp [dictGet, dictSet]
  | (k2, v2) :: rest, k, v => by
    by_cases h : k2 = k <;>
      simp [dictGet, dictSet, h, dictGet_dictSet_same rest k v]

/-- Setting one key leaves lookups of other keys unchanged. -/
theorem dictGet_dictSet_other : ∀ (d : List (String × Int)) (k k2 : String) (v : Int),
    k ≠ k2 → dictGet (dictSet d k v) k2 = dictGet d k2
  | [], k, k2, v, h => by simp [dictGet, dictSet, h]
  | (k3, v3) :: rest, k, k2, v, h => by
    by_cases h3 : k3 = k
    · subst h3 ; simp [dictGet, dictSet, h]
    · by_cases h4 : k3 = k2 <;>
        simp [dictGet, dictSet, h3, h4, Ne.symm h,
          dictGet_dictSet_other rest k k2 v h]

/-- Every sextet value names a character of the URL-safe alphabet. -/
theorem sextetChar_mem : ∀ n < 64, sextetChar n ∈ B64URL_ALPHABET.data := by decide

/-- No sextet value names the padding character. -/
theorem sextetChar_ne_pad : ∀ n < 64, sextetChar n ≠ '=' := by decide

/-- Length of the stripped base64url encoding. -/
theorem b64urlEncodeNoPad_length : ∀ bs : List Nat,
    (b64urlEncodeNoPad bs).length = (4 * bs.length + 2) / 3
  | [] => by simp [b64urlEncodeNoPad]
  | [_] => by simp [b64urlEncodeNoPad]
  | [_, _] => by simp [b64urlEncodeNoPad]
  | a :: b :: c :: rest => by
    have ih := b64urlEncodeNoPad_length rest
    simp [b64urlEncodeNoPad, ih]
    omega

/-- Characters of the stripped base64url encoding of bytes lie in the
URL-safe alphabet. -/
theorem b64urlEncodeNoPad_mem : ∀ bs : List Nat, (∀ b ∈ bs, b < 256) →
    ∀ c ∈ b64urlEncodeNoPad bs, c ∈ B64URL_ALPHABET.data
  | [], _, c, hc => by simp [b64urlEncodeNoPad] at hc
  | [a], hb, c, hc => by
    have ha : a < 256 := hb a (by simp)
    simp [b64urlEncodeNoPad] at hc
    rcases hc with h | h <;> subst h <;> exact sextetChar_mem _ (by omega)
  | [a, b], hb, c, hc => by
    have ha : a < 256 := hb a (by simp)
    have hb2 : b < 256 := hb b (by simp)
    simp [b64urlEncodeNoPad] at hc
    rcases hc with h | h | h <;> subst h <;> exact sextetChar_mem _ (by omega)
  | a :: b :: c0 :: rest, hb, c, hc => by
    have ha : a < 256 := hb a (by simp)
    have hb2 : b < 256 := hb b (by simp)
    have hc0 : c0 < 256 := hb c0 (by simp)
    have ih := b64urlEncodeNoPad_mem rest (fun x hx => hb x (by simp [hx]))
    simp [b64urlEncodeNoPad] at hc
    rcases hc with h | h | h | h | h
    · subst h ; exact sextetChar_mem _ (by omega)
    · subst h ; exact sextetChar_mem _ (by omega)
    · subst h ; exact sextetChar_mem _ (by omega)
    · subst h ; exact sextetChar_mem _ (by omega)
    · exact ih c h

/-- Every element of the digest-byte fold is below 256. -/
theorem digestBytes_lt : ∀ (ws : List Nat), ∀ b ∈ ws.foldr (fun wrd acc =>
    wrd / 2 ^ 24 % 256 :: wrd / 2 ^ 16 % 256 :: wrd / 2 ^ 8 % 256 :: wrd % 256 :: acc) [],
    b < 256
  | [], b, hb => by simp at hb
  | w :: rest, b, hb => by
    simp only [List.foldr, List.mem_cons] at hb
    rcases hb with h | h | h | h | h
    · subst h ; exact Nat.mod_lt _ (by norm_num)
    · subst h ; exact Nat.mod_lt _ (by norm_num)
    · subst h ; exact Nat.mod_lt _ (by norm_num)
    · subst h ; exact Nat.mod_lt _ (by norm_num)
    · exact digestBytes_lt rest b h

/-- Every byte of a SHA-256 digest is below 256. -/
theorem sha256_byte_lt (msg : List Nat) : ∀ b ∈ sha256 msg, b < 256 := by
  intro b hb
  exact digestBytes_lt _ b hb

/-- On a non-callback path `do_GET` changes nothing. -/
theorem do_GET_notfound (r : GetRequest) (sv : OAuthServerState)
    (hp : r.path ≠ "/callback") : do_GET r sv = sv := by
  simp [do_GET, hp]

/-- Branch of `do_GET` taken when the error parameter is truthy. -/
theorem do_GET_error_branch (r : GetRequest) (sv : OAuthServerState)
    (hp : r.path = "/callback") (h1 : truthy r.error = true) :
    do_GET r sv = { sv with oauth_error := r.error } := by
  simp [do_GET, hp, h1]

/-- Branch of `do_GET` taken when no truthy error and no truthy code came. -/
theorem do_GET_nocode_branch (r : GetRequest) (sv : OAuthServerState)
    (hp : r.path = "/callback") (h1 : truthy r.error = false)
    (h2 : truthy r.code = false) :
    do_GET r sv = { sv with oauth_error := some "No authorization code received" } := by
  simp [do_GET, hp, h1, h2]

/-- Branch of `do_GET` taken on a truthy code with a mismatched state. -/
theorem do_GET_csrf_branch (r : GetRequest) (sv : OAuthServerState)
    (hp : r.path = "/callback") (h1 : truthy r.error = false)
    (h2 : truthy r.code = true) (h3 : r.state ≠ some sv.expected_state) :
    do_GET r sv = { sv with oauth_error := some "State mismatch — possible CSRF attack" } := by
  simp [do_GET, hp, h1, h2, h3]

/-- Branch of `do_GET` taken on a truthy code with the expected state. -/
theorem do_GET_success_branch (r : GetRequest) (sv : OAuthServerState)
    (hp : r.path = "/callback") (h1 : truthy r.error = false)
    (h2 : truthy r.code = true) (h3 : r.state = some sv.expected_state) :
    do_GET r sv = { sv with oauth_code := r.code } := by
  simp [do_GET, hp, h1, h2, h3]

/-- From an outcome-free server state, one `do_GET` never leaves both the
code and the error cell set. -/
theorem do_GET_no_both (r : GetRequest) (sv : OAuthServerState)
    (hc : truthy sv.oauth_code = false) (he : truthy sv.oauth_error = false) :
    (truthy (do_GET r sv).oauth_error = true → truthy (do_GET r sv).oauth_code = false) ∧
    (truthy (do_GET r sv).oauth_code = true → truthy (do_GET r sv).oauth_error = false) := by
  by_cases hp : r.path = "/callback"
  · by_cases h1 : truthy r.error = true
    · rw [do_GET_error_branch r sv hp h1]
      exact ⟨fun _ => hc, fun hcc => by rw [hcc] at hc ; exact absurd hc (by simp)⟩
    · have h1f : truthy r.error = false := by simpa using h1
      by_cases h2 : truthy r.code = true
      · by_cases h3 : r.state = some sv.expected_state
        · rw [do_GET_success_branch r sv hp h1f h2 h3]
          exact ⟨fun hee => by rw [hee] at he ; exact absurd he (by simp), fun _ => he⟩
        · rw [do_GET_csrf_branch r sv hp h1f h2 h3]
          exact ⟨fun _ => hc, fun hcc => by rw [hcc] at hc ; exact absurd hc (by simp)⟩
      · have h2f : truthy r.code = false := by simpa using h2
        rw [do_GET_nocode_branch r sv hp h1f h2f]
        exact ⟨fun _ => hc, fun hcc => by rw [hcc] at hc ; exact absurd hc (by simp)⟩
  · rw [do_GET_notfound r sv hp]
    exact ⟨fun _ => hc, fun _ => he⟩

/-- Loop invariant of `_serve` from an outcome-free server state: at most
one exchange, exactly one iff the terminal outcome is a code, and the
final state never holds a code and an error at once. -/
theorem serveLoop_invariant : ∀ (reqs : List GetRequest) (sv : OAuthServerState),
    truthy sv.oauth_code = false → truthy sv.oauth_error = false →
    (serveLoop reqs sv 0).2 ≤ 1 ∧
    ((serveLoop reqs sv 0).2 = 1 ↔ truthy (serveLoop reqs sv 0).1.oauth_code = true) ∧
    ¬(truthy (serveLoop reqs sv 0).1.oauth_code = true ∧
      truthy (serveLoop reqs sv 0).1.oauth_error = true)
  | [], sv, hc, he => by simp [serveLoop, hc]
  | r :: rest, sv, hc, he => by
    have hb := do_GET_no_both r sv hc he
    by_cases h1 : truthy (do_GET r sv).oauth_error = true
    · simp [serveLoop, h1, hb.1 h1]
    · by_cases h2 : truthy (do_GET r sv).oauth_code = true
      · simp [serveLoop, h1, h2]
      · have ih := serveLoop_invariant rest (do_GET r sv)
          (by simpa using h2) (by simpa using h1)
        simpa [serveLoop, h1, h2] using ih

/-- Once a request produces a terminal outcome, the rest of the trace is
irrelevant: the loop no longer accepts outcomes. -/
theorem serveLoop_first_wins (r : GetRequest) (rest rest2 : List GetRequest)
    (sv : OAuthServerState) (k : Nat)
    (hterm : truthy (do_GET r sv).oauth_error = true ∨
      truthy (do_GET r sv).oauth_code = true) :
    serveLoop (r :: rest) sv k = serveLoop (r :: rest2) sv k := by
  rcases hterm with h | h
  · simp [serveLoop, h]
  · by_cases h1 : truthy (do_GET r sv).oauth_error = true <;>
      simp [serveLoop, h1, h]

/-- One compression round preserves the register-list length. -/
theorem compressRound_length (st : List Nat) (kw : Nat × Nat) :
    (compressRound st kw).length = st.length := by
  unfold compressRound
  split <;> simp_all

/-- Folding compression rounds preserves the register-list length. -/
theorem foldl_compressRound_length : ∀ (l : List (Nat × Nat)) (st : List Nat),
    (l.foldl compressRound st).length = st.length
  | [], _ => rfl
  | p :: rest, st => by
    rw [List.foldl_cons, foldl_compressRound_length rest, compressRound_length]

/-- One block compression preserves the hash length. -/
theorem compressBlock_length (h : List Nat) (block : List Nat) :
    (compressBlock h block).length = h.length := by
  unfold compressBlock
  rw [List.length_map, List.length_zip, foldl_compressRound_length]
  simp

/-- Folding block compressions preserves the hash length. -/
theorem foldl_compressBlock_length : ∀ (blocks : List (List Nat)) (h : List Nat),
    (blocks.foldl compressBlock h).length = h.length
  | [], _ => rfl
  | b :: rest, h => by
    rw [List.foldl_cons, foldl_compressBlock_length rest, compressBlock_length]

/-- The digest-byte fold yields four bytes per word. -/
theorem digestBytes_length : ∀ ws : List Nat,
    (ws.foldr (fun wrd acc =>
      wrd / 2 ^ 24 % 256 :: wrd / 2 ^ 16 % 256 :: wrd / 2 ^ 8 % 256 :: wrd % 256 :: acc)
      []).length = 4 * ws.length
  | [] => rfl
  | w :: rest => by
    simp only [List.foldr, List.length_cons, digestBytes_length rest]
    omega

/-- A SHA-256 digest always has 32 bytes. -/
theorem sha256_length (msg : List Nat) : (sha256 msg).length = 32 := by
  unfold sha256
  rw [digestBytes_length, foldl_compressBlock_length]
  rfl

/-- No character of the URL-safe alphabet is the padding character. -/
theorem b64url_alphabet_no_pad : ∀ c ∈ B64URL_ALPHABET.data, c ≠ '=' := by decide

/-- For a parse_qs-producible parameter (never `some ""`), truthiness is
presence. -/
theorem truthy_eq_isSome (o : Option String) (h : o ≠ some "") :
    truthy o = o.isSome := by
  cases o with
  | none => rfl
  | some s =>
    have hs : s ≠ "" := fun hh => h (by rw [hh])
    have he : s.isEmpty = false := by
      rw [Bool.eq_false_iff]
      intro hh
      exact hs ((String.isEmpty_iff s).mp hh)
    simp [truthy, he]

/-! Claim theorems. -/

/-- C1: for every GET request on the callback route, the outcome follows
the precedence: a present `error` is recorded as the terminal error even
when a code is present; otherwise a missing code records the
no-authorization-code error; otherwise a state differing from the
session's expected state records the CSRF error and discards the code;
otherwise the code itself is recorded. -/
theorem callback_precedence (req : GetRequest) (s : String)
    (hpath : req.path = "/callback")
    (hcv : req.code ≠ some "") (hev : req.error ≠ some "") :
    (req.error.isSome = true →
      (do_GET req (freshServer s)).oauth_error = req.error ∧
      (do_GET req (freshServer s)).oauth_code = none) ∧
    (req.error = none → req.code = none →
      (do_GET req (freshServer s)).oauth_error = some "No authorization code received" ∧
      (do_GET req (freshServer s)).oauth_code = none) ∧
    (req.error = none → req.code.isSome = true → req.state ≠ some s →
      (do_GET req (freshServer s)).oauth_error =
        some "State mismatch — possible CSRF attack" ∧
      (do_GET req (freshServer s)).oauth_code = none) ∧
    (req.error = none → req.code.isSome = true → req.state = some s →
      (do_GET req (freshServer s)).oauth_code = req.code ∧
      (do_GET req (freshServer s)).oauth_error = none) := by
  refine ⟨?_, ?_, ?_, ?_⟩
  · intro hs
    have h1 : truthy req.error = true := by
      rw [truthy_eq_isSome req.error hev, hs]
    rw [do_GET_error_branch req (freshServer s) hpath h1]
    exact ⟨rfl, rfl⟩
  · intro he0 hc0
    have h1 : truthy req.error = false := by rw [he0] ; rfl
    have h2 : truthy req.code = false := by rw [hc0] ; rfl
    rw [do_GET_nocode_branch req (freshServer s) hpath h1 h2]
    exact ⟨rfl, rfl⟩
  · intro he0 hcs hst
    have h1 : truthy req.error = false := by rw [he0] ; rfl
    have h2 : truthy req.code = true := by
      rw [truthy_eq_isSome req.code hcv, hcs]
    have h3 : req.state ≠ some (freshServer s).expected_state := hst
    rw [do_GET_csrf_branch req (freshServer s) hpath h1 h2 h3]
    exact ⟨rfl, rfl⟩
  · intro he0 hcs hst
    have h1 : truthy req.error = false := by rw [he0] ; rfl
    have h2 : truthy req.code = true := by
      rw [truthy_eq_isSome req.code hcv, hcs]
    have h3 : req.state = some (freshServer s).expected_state := hst
    rw [do_GET_success_branch req (freshServer s) hpath h1 h2 h3]
    exact ⟨rfl, rfl⟩

/-- Witness for C1 at a concrete request carrying both an error and a
valid code: the error wins. -/
theorem callback_precedence_witness :
    (do_GET (mkReq (some "ABC123") (some "s1") (some "access_denied"))
        (freshServer "s1")).oauth_error = some "access_denied" ∧
    (do_GET (mkReq (some "ABC123") (some "s1") (some "access_denied"))
        (freshServer "s1")).oauth_code = none := by
  exact (callback_precedence (mkReq (some "ABC123") (some "s1") (some "access_denied"))
    "s1" rfl (by decide) (by decide)).1 rfl

/-- C2: a callback whose state differs from the expected one, even with a
valid code, terminates the worker loop with the CSRF error and zero
invocations of the code-to-token exchange, whatever requests follow. -/
theorem csrf_never_exchanges (s1 s2 c : String) (rest : List GetRequest)
    (hne : s2 ≠ s1) (hc : c ≠ "") :
    serveLoop (mkReq (some c) (some s2) none :: rest) (freshServer s1) 0 =
      ({ freshServer s1 with
         oauth_error := some "State mismatch — possible CSRF attack" }, 0) := by
  have hcne : (some c : Option String) ≠ some "" := by simp [hc]
  have h2 : truthy (some c) = true := by
    rw [truthy_eq_isSome (some c) hcne] ; rfl
  have h3 : (mkReq (some c) (some s2) none).state ≠
      some (freshServer s1).expected_state := by
    simp [mkReq, freshServer, hne]
  have hd := do_GET_csrf_branch (mkReq (some c) (some s2) none)
    (freshServer s1) rfl rfl h2 h3
  have ht : truthy (some "State mismatch — possible CSRF attack") = true := by decide
  simp only [serveLoop, hd]
  simp [freshServer, ht]

/-- Witness for C2 at concrete states and code. -/
theorem csrf_never_exchanges_witness :
    serveLoop [mkReq (some "ABC123") (some "evil") none] (freshServer "good") 0 =
      ({ freshServer "good" with
         oauth_error := some "State mismatch — possible CSRF attack" }, 0) := by
  exact csrf_never_exchanges "good" "evil" "ABC123" [] (by decide) (by decide)

/-- C4 counterexample: a session whose only callback carries `error`
reaches a terminal outcome with zero exchange calls, so "exactly one
exchange request is issued per session" fails as stated. -/
theorem error_session_zero_exchanges :
    (serveLoop [mkReq none none (some "access_denied")] (freshServer "state0") 0).2 = 0 ∧
    truthy (serveLoop [mkReq none none (some "access_denied")]
      (freshServer "state0") 0).1.oauth_error = true := by
  decide

/-- C4 as amended: per session the listener records at most one terminal
outcome, never both a code and an error; the first terminal outcome
fixes the result whatever requests follow; and at most one exchange is
issued — exactly one precisely when the terminal outcome is a code. -/
theorem single_terminal_outcome (reqs : List GetRequest) (s : String)
    (r : GetRequest) (rest rest2 : List GetRequest) (k : Nat)
    (sv : OAuthServerState)
    (hterm : truthy (do_GET r sv).oauth_error = true ∨
      truthy (do_GET r sv).oauth_code = true) :
    (serveLoop reqs (freshServer s) 0).2 ≤ 1 ∧
    ((serveLoop reqs (freshServer s) 0).2 = 1 ↔
      truthy (serveLoop reqs (freshServer s) 0).1.oauth_code = true) ∧
    ¬(truthy (serveLoop reqs (freshServer s) 0).1.oauth_code = true ∧
      truthy (serveLoop reqs (freshServer s) 0).1.oauth_error = true) ∧
    serveLoop (r :: rest) sv k = serveLoop (r :: rest2) sv k := by
  have hi := serveLoop_invariant reqs (freshServer s) rfl rfl
  exact ⟨hi.1, hi.2.1, hi.2.2, serveLoop_first_wins r rest rest2 sv k hterm⟩

/-- Witness for the amended C4 at a concrete trace and terminal request. -/
theorem single_terminal_outcome_witness :
    (serveLoop [mkReq (some "ABC123") (some "st") none] (freshServer "st") 0).2 ≤ 1 ∧
    ((serveLoop [mkReq (some "ABC123") (some "st") none] (freshServer "st") 0).2 = 1 ↔
      truthy (serveLoop [mkReq (some "ABC123") (some "st") none]
        (freshServer "st") 0).1.oauth_code = true) ∧
    ¬(truthy (serveLoop [mkReq (some "ABC123") (some "st") none]
        (freshServer "st") 0).1.oauth_code = true ∧
      truthy (serveLoop [mkReq (some "ABC123") (some "st") none]
        (freshServer "st") 0).1.oauth_error = true) ∧
    serveLoop [mkReq none none (some "denied"), mkReq (some "ABC123") (some "st") none]
        (freshServer "st") 0 =
      serveLoop [mkReq none none (some "denied")] (freshServer "st") 0 := by
  exact single_terminal_outcome [mkReq (some "ABC123") (some "st") none] "st"
    (mkReq none none (some "denied"))
    [mkReq (some "ABC123") (some "st") none] [] 0 (freshServer "st")
    (Or.inl (by decide))

/-- C5 evaluated at its failing input: `stop()` on a client whose worker
only ever ran `handle_request()` blocks forever inside
`HTTPServer.shutdown()` (result `none`), contradicting the claim that it
returns normally; before `start()` it does return, and a repeat of that
call is harmless. -/
theorem stop_blocks_after_start :
    stop startedClient = none ∧
    stop initClient = some { initClient with _done := true } ∧
    (stop initClient).bind stop = some { initClient with _done := true } := by
  decide

/-- C6 counterexample: an HTTP 500 refresh response with body "oops"
yields a message that carries the status but not the body, so "message
carries the status and body" fails as stated. -/
theorem refresh_500_message_lacks_body :
    refresh_access_token (.httpError 500 "oops") 0 =
      .errorResult "Token refresh failed (HTTP 500)" ∧
    strContains "Token refresh failed (HTTP 500)" "oops" = false := by
  decide

/-- C6 as amended: a refresh answered with HTTP 4xx (401, 403 and 404
included) yields the fixed revoked-token message with re-authorize
wording; HTTP 500 yields a distinct generic message that carries the
status only, not the body. -/
theorem refresh_error_kinds (now : Int) (code : Nat) (body : String)
    (h4 : 400 ≤ code) (h5 : code < 500) :
    refresh_access_token (.httpError code body) now =
      .errorResult "Token revoked or expired. Please re-authorize." ∧
    strContains "Token revoked or expired. Please re-authorize." "re-authorize" = true ∧
    (∃ msg, refresh_access_token (.httpError 500 body) now = .errorResult msg ∧
      strContains msg "500" = true ∧
      msg ≠ "Token revoked or expired. Please re-authorize.") := by
  refine ⟨?_, by decide, ?_⟩
  · simp only [refresh_access_token]
    rw [if_pos ⟨h4, h5⟩]
  · refine ⟨"Token refresh failed (HTTP 500)", ?_, by decide, by decide⟩
    simp only [refresh_access_token]
    rw [if_neg (by omega)]
    rfl

/-- Witness for the amended C6 at status 401. -/
theorem refresh_error_kinds_witness :
    refresh_access_token (.httpError 401 "unauthorized") 0 =
      .errorResult "Token revoked or expired. Please re-authorize." ∧
    strContains "Token revoked or expired. Please re-authorize." "re-authorize" = true ∧
    (∃ msg, refresh_access_token (.httpError 500 "unauthorized") 0 = .errorResult msg ∧
      strContains msg "500" = true ∧
      msg ≠ "Token revoked or expired. Please re-authorize.") := by
  exact refresh_error_kinds 0 401 "unauthorized" (by decide) (by decide)

/-- C7: every 4xx/5xx exchange response becomes an error whose message
carries the status and the body; at HTTP 400 with body "invalid_grant"
the message contains "400" and "invalid_grant". -/
theorem exchange_http_error_message (now : Int) (code : Nat) (body : String)
    (_h4 : 400 ≤ code) (_h6 : code < 600) :
    (∃ msg, exchange_code_for_tokens (.httpError code body) now = .errorResult msg ∧
      strContains msg (toString code) = true ∧ strContains msg body = true) ∧
    (∃ msg, exchange_code_for_tokens (.httpError 400 "invalid_grant") now =
        .errorResult msg ∧
      strContains msg "400" = true ∧ strContains msg "invalid_grant" = true) := by
  constructor
  · refine ⟨"Token exchange failed (HTTP " ++ toString code ++ "): " ++ body,
      rfl, ?_, ?_⟩
    · have := listSub_append ("Token exchange failed (HTTP ").data
        (toString code).data (("): " ++ body).data)
      simpa [strContains, String.data_append, List.append_assoc] using this
    · have := listSub_append ("Token exchange failed (HTTP " ++ toString code ++ "): ").data
        body.data []
      simpa [strContains, String.data_append, List.append_assoc] using this
  · exact ⟨"Token exchange failed (HTTP 400): invalid_grant", rfl,
      by decide, by decide⟩

/-- Witness for C7 at HTTP 400 and body "invalid_grant". -/
theorem exchange_http_error_message_witness :
    (∃ msg, exchange_code_for_tokens (.httpError 400 "invalid_grant") 0 =
        .errorResult msg ∧
      strContains msg (toString 400) = true ∧ strContains msg "invalid_grant" = true) := by
  exact (exchange_http_error_message 0 400 "invalid_grant" (by decide) (by decide)).1

/-- C8: on every successful exchange or refresh response the returned
dict's `expires_at` is the receipt time plus `expires_in`, the receipt
time plus 3600 when `expires_in` is absent, and it never depends on any
`expires_at` the response itself carried. -/
theorem expires_at_stamped (now : Int) (data : List (String × Int)) :
    (∃ d, exchange_code_for_tokens (.ok data) now = .tokens d ∧
      dictGet d "expires_at" = some (now + (dictGet data "expires_in").getD 3600)) ∧
    (∃ d, refresh_access_token (.ok data) now = .tokens d ∧
      dictGet d "expires_at" = some (now + (dictGet data "expires_in").getD 3600)) ∧
    (dictGet data "expires_in" = none →
      ∃ d, exchange_code_for_tokens (.ok data) now = .tokens d ∧
        dictGet d "expires_at" = some (now + 3600)) ∧
    (∀ v : Int, ∃ d d2,
      exchange_code_for_tokens (.ok (dictSet data "expires_at" v)) now = .tokens d ∧
      exchange_code_for_tokens (.ok data) now = .tokens d2 ∧
      dictGet d "expires_at" = dictGet d2 "expires_at") := by
  refine ⟨?_, ?_, ?_, ?_⟩
  · exact ⟨dictSet data "expires_at" (now + (dictGet data "expires_in").getD 3600),
      rfl, dictGet_dictSet_same data _ _⟩
  · exact ⟨dictSet data "expires_at" (now + (dictGet data "expires_in").getD 3600),
      rfl, dictGet_dictSet_same data _ _⟩
  · intro h0
    refine ⟨dictSet data "expires_at" (now + (dictGet data "expires_in").getD 3600),
      rfl, ?_⟩
    rw [dictGet_dictSet_same, h0]
    rfl
  · intro v
    refine ⟨dictSet (dictSet data "expires_at" v) "expires_at"
        (now + (dictGet (dictSet data "expires_at" v) "expires_in").getD 3600),
      dictSet data "expires_at" (now + (dictGet data "expires_in").getD 3600),
      rfl, rfl, ?_⟩
    rw [dictGet_dictSet_same, dictGet_dictSet_same,
      dictGet_dictSet_other data "expires_at" "expires_in" v (by decide)]

/-- Witness for C8 at a concrete response and receipt time. -/
theorem expires_at_stamped_witness :
    ∃ d, exchange_code_for_tokens (.ok [("expires_in", 7200)]) 1000 = .tokens d ∧
      dictGet d "expires_at" = some 8200 := by
  obtain ⟨d, hd, hg⟩ := (expires_at_stamped 1000 [("expires_in", 7200)]).1
  refine ⟨d, hd, ?_⟩
  rw [hg]
  rfl

/-- C3: any verifier built from 43 random bytes is a 58-character string
(so at least 43), every character lies in the URL-safe alphabet and none
is padding; and the challenge of any verifier is exactly the URL-safe
base64 encoding, padding stripped, of its SHA-256 digest — a
43-character padding-free URL-safe string, the same on every call. -/
theorem pkce_verifier_challenge_spec (bs : List Nat) (v : String)
    (hlen : bs.length = 43) (hb : ∀ b ∈ bs, b < 256) :
    (_generate_code_verifier bs).length = 58 ∧
    43 ≤ (_generate_code_verifier bs).length ∧
    (∀ c ∈ (_generate_code_verifier bs).data, c ∈ B64URL_ALPHABET.data) ∧
    (∀ c ∈ (_generate_code_verifier bs).data, c ≠ '=') ∧
    _generate_code_challenge v = (⟨b64urlEncodeNoPad (sha256 (asciiBytes v))⟩ : String) ∧
    (∀ c ∈ (_generate_code_challenge v).data, c ∈ B64URL_ALPHABET.data) ∧
    (∀ c ∈ (_generate_code_challenge v).data, c ≠ '=') ∧
    (_generate_code_challenge v).length = 43 := by
  have hlen1 : (_generate_code_verifier bs).length = 58 := by
    show (b64urlEncodeNoPad bs).length = 58
    rw [b64urlEncodeNoPad_length bs, hlen]
  have hmem : ∀ c ∈ (_generate_code_verifier bs).data, c ∈ B64URL_ALPHABET.data :=
    fun c hc => b64urlEncodeNoPad_mem bs hb c hc
  have hcmem : ∀ c ∈ (_generate_code_challenge v).data, c ∈ B64URL_ALPHABET.data :=
    fun c hc =>
      b64urlEncodeNoPad_mem (sha256 (asciiBytes v)) (sha256_byte_lt _) c hc
  refine ⟨hlen1, by omega, hmem,
    fun c hc => b64url_alphabet_no_pad c (hmem c hc), rfl, hcmem,
    fun c hc => b64url_alphabet_no_pad c (hcmem c hc), ?_⟩
  show (b64urlEncodeNoPad (sha256 (asciiBytes v))).length = 43
  rw [b64urlEncodeNoPad_length, sha256_length]

/-- Witness for C3 at a concrete 43-byte draw and a concrete verifier. -/
theorem pkce_verifier_challenge_spec_witness :
    (_generate_code_verifier (List.replicate 43 0)).length = 58 ∧
    _generate_code_challenge "x" =
      (⟨b64urlEncodeNoPad (sha256 (asciiBytes "x"))⟩ : String) ∧
    (_generate_code_challenge "x").length = 43 := by
  have h := pkce_verifier_challenge_spec (List.replicate 43 0) "x" (by decide)
    (by decide)
  exact ⟨h.1, h.2.2.2.2.1, h.2.2.2.2.2.2.2⟩

/-- Sanity check of the SHA-256 and base64url embedding against the PKCE
test vector of RFC 7636 Appendix B. -/
theorem challenge_matches_rfc7636_vector :
    _generate_code_challenge "dBjftJeZ4CVP-mB92K27uhbUJU1p1r_wW1gFWFOEjXk" =
      "E9Melhoa2OwvFrEMTJguCHaoeK1t8URWbuGJSstw-cM" := by
  rfl

/-- Sanity check of the lenient base64 and JSON embeddings against
CPython on the delicate inputs: an interior pad sequence stops decoding
(so trailing junk after `==` is ignored and the payload still parses), a
fractional payload parses, and a pad that never completes its group is
the Incorrect-padding error. -/
theorem lenient_decode_matches_python :
    decode_jwt_payload "h.eyJhIjoxfQ==QQQ.s" = .jobj [("a", .jnum "1")] ∧
    decode_jwt_payload "h.eyJhIjoxfQ==QQQQ.s" = .jobj [("a", .jnum "1")] ∧
    decode_jwt_payload "h.MS41.s" = .jnum "1.5" ∧
    _b64url_decode "NQ%" = none := by
  exact ⟨rfl, rfl, rfl, rfl⟩

/-- C10: the captured manual API key lives in the class attribute shared
by all instances: starting the callback server on any instance clears it
for every instance, a key captured by any instance's listener is what
any instance's poll returns, and polling does not depend on the instance
at all. -/
theorem sso_key_is_class_level (w : SSOWorld) (i j : Nat) (port : Nat)
    (k : String) (hk : k ≠ "") :
    sso_poll_for_key j (sso_start_callback_server i port w) = none ∧
    sso_poll_for_key j (sso_do_GET (some k) w) = some k ∧
    sso_poll_for_key i w = sso_poll_for_key j w := by
  refine ⟨rfl, ?_, rfl⟩
  have ht : truthy (some k) = true := by
    rw [truthy_eq_isSome (some k) (by simp [hk])] ; rfl
  simp [sso_poll_for_key, sso_do_GET, ht]

/-- Witness for C10 with two instances (0 and 1) over a concrete world. -/
theorem sso_key_is_class_level_witness :
    sso_poll_for_key 1 (sso_start_callback_server 0 8080
      { handler_api_key := none, ports := fun _ => none }) = none ∧
    sso_poll_for_key 1 (sso_do_GET (some "APIKEY")
      { handler_api_key := none, ports := fun _ => none }) = some "APIKEY" ∧
    sso_poll_for_key 0 { handler_api_key := none, ports := fun _ => none } =
      sso_poll_for_key 1 { handler_api_key := none, ports := fun _ => none } := by
  exact sso_key_is_class_level { handler_api_key := none, ports := fun _ => none }
    0 1 8080 "APIKEY" (by decide)

end FSMM
